import Mathlib

/-!
Verification of the kelvin-stardate conversion core and validators.

The Python source (src/kelvin_stardate/core.py, validators.py, errors.py) is
shallowly embedded below.  Python `int` is modelled by `ℤ`, `float` by `ℚ`
(the decimal constant 365.2425 is taken exactly; rounding is Python 3
round-half-even), strings by Lean `String`/`List Char`, and raised
exceptions by `Except`.
-/

set_option maxRecDepth 10000
set_option synthInstance.maxSize 4000

namespace Kelvin

/-- Error raised by the core library (`StardateError` in core.py), or a bare
`ValueError` escaping from Python's `int()` builtin inside `KelvinStardate.parse`. -/
inductive CoreErr where
  | stardate (msg : String)
  | valueError
deriving DecidableEq, Repr

/-- Coded CLI-level error (`StardateCLIError(code, msg)` in errors.py). -/
structure CLIErr where
  code : String
  msg : String
deriving DecidableEq, Repr

/-- Models core.py `is_leap_year`: `year % 4 == 0 and (year % 100 != 0 or year % 400 == 0)`.
Lean `Int.emod` agrees with Python `%` for a positive modulus. -/
def is_leap_year (year : ℤ) : Bool :=
  year % 4 == 0 && (year % 100 != 0 || year % 400 == 0)

/-- Length of month `m` (1-12) of a (non-)leap year, as in Python's `datetime.date`. -/
def daysInMonth (leap : Bool) : ℕ → ℕ
  | 1 => 31
  | 2 => if leap then 29 else 28
  | 3 => 31
  | 4 => 30
  | 5 => 31
  | 6 => 30
  | 7 => 31
  | 8 => 31
  | 9 => 30
  | 10 => 31
  | 11 => 30
  | 12 => 31
  | _ => 0

/-- Number of days strictly before month `m` in a year (`daysBeforeMonth leap 1 = 0`). -/
def daysBeforeMonth (leap : Bool) : ℕ → ℕ
  | 0 => 0
  | m + 1 => if m = 0 then 0 else daysBeforeMonth leap m + daysInMonth leap m

/-- Models Python's `datetime.date`: a calendar date (year, month, day). -/
structure CalDate where
  year : ℤ
  month : ℕ
  day : ℕ
deriving DecidableEq, Repr

/-- Validity per the Gregorian rules enforced by Python's `datetime.date`
constructor: year in 1..9999, month in 1..12, day within the month. -/
def ValidDate (d : CalDate) : Prop :=
  1 ≤ d.year ∧ d.year ≤ 9999 ∧ 1 ≤ d.month ∧ d.month ≤ 12 ∧
    1 ≤ d.day ∧ d.day ≤ daysInMonth (is_leap_year d.year) d.month

instance : DecidablePred ValidDate := fun d => by
  unfold ValidDate
  exact inferInstance

/-- Total days of a year, per Python's calendar. -/
def daysInYear (y : ℤ) : ℕ := if is_leap_year y then 366 else 365

/-- Models core.py `day_of_year` (`dt.timetuple().tm_yday`): 1-based ordinal day. -/
def day_of_year (dt : CalDate) : ℕ :=
  daysBeforeMonth (is_leap_year dt.year) dt.month + dt.day

/-- Month and day of the `n`-th day of a year (1-based), for `1 ≤ n ≤ daysInYear`.
This is the month/day part of Python's `date(y, 1, 1) + timedelta(days = n - 1)`,
which at every call site below is applied with `n` inside the year. -/
def monthDayOfOrdinal (leap : Bool) (n : ℕ) : ℕ × ℕ :=
  if n ≤ daysBeforeMonth leap 2 then (1, n)
  else if n ≤ daysBeforeMonth leap 3 then (2, n - daysBeforeMonth leap 2)
  else if n ≤ daysBeforeMonth leap 4 then (3, n - daysBeforeMonth leap 3)
  else if n ≤ daysBeforeMonth leap 5 then (4, n - daysBeforeMonth leap 4)
  else if n ≤ daysBeforeMonth leap 6 then (5, n - daysBeforeMonth leap 5)
  else if n ≤ daysBeforeMonth leap 7 then (6, n - daysBeforeMonth leap 6)
  else if n ≤ daysBeforeMonth leap 8 then (7, n - daysBeforeMonth leap 7)
  else if n ≤ daysBeforeMonth leap 9 then (8, n - daysBeforeMonth leap 8)
  else if n ≤ daysBeforeMonth leap 10 then (9, n - daysBeforeMonth leap 9)
  else if n ≤ daysBeforeMonth leap 11 then (10, n - daysBeforeMonth leap 10)
  else if n ≤ daysBeforeMonth leap 12 then (11, n - daysBeforeMonth leap 11)
  else (12, n - daysBeforeMonth leap 12)

/-- Models `date(y, 1, 1) + timedelta(days = n - 1)` for `1 ≤ n ≤ daysInYear y`. -/
def dateFromOrdinal (y : ℤ) (n : ℕ) : CalDate :=
  ⟨y, (monthDayOfOrdinal (is_leap_year y) n).1, (monthDayOfOrdinal (is_leap_year y) n).2⟩

/-- Python `int(float)`: truncation toward zero. -/
def pyInt (x : ℚ) : ℤ := if x < 0 then ⌈x⌉ else ⌊x⌋

/-- Python 3 `round(x)`: round half to even.  On a tie `x = n + 1/2` the value
`2 * round (x / 2)` is the even one of `n`, `n + 1`; otherwise it is the nearest
integer (Mathlib `round` rounds half up, which agrees off ties). -/
def pyRound (x : ℚ) : ℤ :=
  if Int.fract x = 1 / 2 then 2 * round (x / 2) else round x

/-- Python 3 `round(x, 5)`: round to 5 decimal digits. -/
def pyRound5 (x : ℚ) : ℚ := (pyRound (x * 100000) : ℚ) / 100000

/-- The source's literal `365.2425`, taken as an exact decimal. -/
def yearLen : ℚ := 3652425 / 10000

/-- Models core.py `KelvinStardate`: immutable (year, ordinal_day) pair. -/
structure KelvinStardate where
  year : ℤ
  ordinal_day : ℤ
deriving DecidableEq, Repr

/-- Python whitespace as stripped by `str.strip()` (ASCII range). -/
def pyIsSpace (c : Char) : Bool :=
  c = ' ' || c = '\t' || c = '\n' || c = '\r' || c.toNat = 11 || c.toNat = 12

/-- Models Python `str.strip()`. -/
def pyStrip (cs : List Char) : List Char :=
  ((cs.dropWhile pyIsSpace).reverse.dropWhile pyIsSpace).reverse

/-- Is `c` an ASCII decimal digit (codepoint 48..57, i.e. between the
characters 0 and 9). -/
def isDigitChar (c : Char) : Bool := 48 ≤ c.toNat && c.toNat ≤ 57

/-- Models Python `str.isdigit()` restricted to ASCII strings: nonempty and
all ASCII decimal digits.  On such strings it also characterizes when the
builtin `int()` succeeds.  The real `str.isdigit()` is wider: it accepts
non-decimal Unicode digits (Numeric_Type=Digit, e.g. the superscript two)
on which `int()` raises — that behavior is modelled by `pyIsDigitChar`,
`pyIsdigit` and `parse_day_py` below. -/
def isdigitL (cs : List Char) : Bool := !cs.isEmpty && cs.all isDigitChar

/-- Numeric value of a digit string (leading zeros permitted). -/
def digitsToNat (cs : List Char) : ℕ :=
  cs.foldl (fun a c => 10 * a + (c.toNat - 48)) 0

/-- The digit character for `n < 10`. -/
def digitChar (n : ℕ) : Char := Char.ofNat (48 + n)

/-- Decimal digits of `n`, most significant first, as printed by Python `str(int)`. -/
def natDigits (n : ℕ) : List Char :=
  if _h : n < 10 then [digitChar n]
  else natDigits (n / 10) ++ [digitChar (n % 10)]
termination_by n
decreasing_by exact Nat.div_lt_self (by omega) (by omega)

/-- Models Python `str(int)` / f-string rendering of an integer. -/
def intToStr (i : ℤ) : String :=
  if i < 0 then "-" ++ String.mk (natDigits (-i).toNat)
  else String.mk (natDigits i.toNat)

/-- Left-pad with zeros to width `w` (Python format `0wd` on a nonnegative value). -/
def zeroPad (w : ℕ) (cs : List Char) : List Char :=
  List.replicate (w - cs.length) '0' ++ cs

/-- Models Python's builtin `int(str)` on ASCII strings: optional surrounding
whitespace, optional sign, then digits (Python's underscore grouping and
non-ASCII digits are not produced by any caller modelled here). -/
def pyParseInt (s : String) : Except CoreErr ℤ :=
  match pyStrip s.data with
  | [] => .error .valueError
  | c :: rest =>
    if c = '-' then
      if isdigitL rest then .ok (-(digitsToNat rest : ℤ)) else .error .valueError
    else if c = '+' then
      if isdigitL rest then .ok ((digitsToNat rest : ℤ)) else .error .valueError
    else if isdigitL (c :: rest) then .ok ((digitsToNat (c :: rest) : ℤ))
    else .error .valueError

/-- Models core.py `format_ordinal`: 2-digit zero pad under 100, else 3-digit. -/
def format_ordinal (n : ℤ) : Except CoreErr String :=
  if n < 1 then .error (.stardate "Ordinal day must be >= 1.")
  else if n < 100 then .ok (String.mk (zeroPad 2 (natDigits n.toNat)))
  else .ok (String.mk (zeroPad 3 (natDigits n.toNat)))

/-- Models core.py `KelvinStardate.__str__`. -/
def ksStr (v : KelvinStardate) : Except CoreErr String :=
  match format_ordinal v.ordinal_day with
  | .error e => .error e
  | .ok f => .ok (intToStr v.year ++ "." ++ f)

/-- Models core.py `KelvinStardate.parse`: split on the first dot, `int()` the
year side, require an all-digit ordinal side. -/
def KelvinStardate.parse (s : String) : Except CoreErr KelvinStardate :=
  if ¬ s.data.contains '.' then
    .error (.stardate "Kelvin stardate must contain a decimal point")
  else
    let year_str := s.data.takeWhile (fun c => c ≠ '.')
    let ord_str := (s.data.dropWhile (fun c => c ≠ '.')).drop 1
    match pyParseInt (String.mk year_str) with
    | .error e => .error e
    | .ok year =>
      if ¬ isdigitL ord_str then
        .error (.stardate ("Ordinal part must be numeric: " ++ String.mk ord_str))
      else .ok ⟨year, (digitsToNat ord_str : ℤ)⟩

/-- Models core.py `earth_to_stardate_astronomical`:
`round(dt.year + day_of_year(dt) / 365.2425, 5)`. -/
def earth_to_stardate_astronomical (dt : CalDate) : ℚ :=
  pyRound5 ((dt.year : ℚ) + (day_of_year dt : ℚ) / yearLen)

/-- Models the Python comparison `dt > date(dt.year, 2, 28)` (same year, so
lexicographic on month then day). -/
def dateAfterFeb28 (dt : CalDate) : Bool :=
  2 < dt.month || (dt.month == 2 && 28 < dt.day)

/-- Result of core.py `earth_to_stardate`, which returns a `KelvinStardate` in
kelvin-ordinal modes but a float in astronomical mode. -/
inductive EtsResult where
  | kelvin (sd : KelvinStardate)
  | astro (x : ℚ)
deriving DecidableEq, Repr

/-- Models core.py `earth_to_stardate`. -/
def earth_to_stardate (dt : CalDate) (leap_mode : String) : Except CoreErr EtsResult :=
  if leap_mode = "astronomical" then
    .ok (.astro (earth_to_stardate_astronomical dt))
  else
    let greg := day_of_year dt
    if leap_mode = "gregorian" then
      .ok (.kelvin ⟨dt.year, (greg : ℤ)⟩)
    else if leap_mode = "no_leap" then
      if is_leap_year dt.year && dateAfterFeb28 dt then
        .ok (.kelvin ⟨dt.year, (greg : ℤ) - 1⟩)
      else
        .ok (.kelvin ⟨dt.year, (greg : ℤ)⟩)
    else
      .error (.stardate ("Unknown leap_mode: " ++ leap_mode))

/-- Ordinal day computed inside core.py `stardate_to_earth_astronomical`:
`int(round(fraction * 365.2425))`, clamped below at 1. -/
def astro_doy (sd : ℚ) : ℤ :=
  let year := pyInt sd
  let doy := pyRound ((sd - (year : ℚ)) * yearLen)
  if doy < 1 then 1 else doy

/-- Models core.py `stardate_to_earth_astronomical`. -/
def stardate_to_earth_astronomical (sd : ℚ) : CalDate :=
  dateFromOrdinal (pyInt sd) (astro_doy sd).toNat

/-- The duck-typed `sd` argument of core.py `stardate_to_earth`:
a `KelvinStardate`, a string, or a float. -/
inductive SdInput where
  | ks (v : KelvinStardate)
  | str (s : String)
  | flt (x : ℚ)

/-- Models core.py `stardate_to_earth`. -/
def stardate_to_earth (sd : SdInput) (leap_mode : String) : Except CoreErr CalDate :=
  if leap_mode = "astronomical" then
    match sd with
    | .flt x => .ok (stardate_to_earth_astronomical x)
    | _ => .error (.stardate "Astronomical mode requires float stardate input")
  else
    match (match sd with
           | .str s => KelvinStardate.parse s
           | .flt _ => .error (.stardate "Float stardate given but not in astronomical mode.")
           | .ks v => .ok v) with
    | .error e => .error e
    | .ok v =>
      let year := v.year
      let ordinal := v.ordinal_day
      let days_in_year : ℤ := if is_leap_year year then 366 else 365
      if leap_mode = "gregorian" then
        if ¬ (1 ≤ ordinal ∧ ordinal ≤ days_in_year) then
          .error (.stardate "Ordinal out of range for Gregorian")
        else .ok (dateFromOrdinal year ordinal.toNat)
      else if leap_mode = "no_leap" then
        if ¬ (1 ≤ ordinal ∧ ordinal ≤ 365) then
          .error (.stardate "Ordinal must be 1..365 in no_leap mode")
        else
          let real_ordinal := if is_leap_year year && decide (59 < ordinal) then ordinal + 1 else ordinal
          if days_in_year < real_ordinal then
            .error (.stardate "Real ordinal exceeds year length")
          else .ok (dateFromOrdinal year real_ordinal.toNat)
      else .error (.stardate ("Unknown leap_mode: " ++ leap_mode))

/-!
Embedding of validators.py.  Error codes are exact; where the Python message
interpolated the offending input via an f-string, the message here is the
fixed text without the interpolated fragment (no claim depends on messages).
`require_not_none` guards a Python `None` that the string domain cannot
carry, so only `require_non_empty` is modelled.
-/

/-- Models validators.py `require_non_empty` (and the `None` guard before it):
error E001 when the stripped input is empty. -/
def emptyInput (s : String) : Bool := pyStrip s.data == []

/-- Models the `MONTH_LOOKUP` table of validators.py. -/
def monthLookup (cs : List Char) : Option ℕ :=
  let s := String.mk cs
  if s = "jan" || s = "january" then some 1
  else if s = "feb" || s = "february" then some 2
  else if s = "mar" || s = "march" then some 3
  else if s = "apr" || s = "april" then some 4
  else if s = "may" then some 5
  else if s = "jun" || s = "june" then some 6
  else if s = "jul" || s = "july" then some 7
  else if s = "aug" || s = "august" then some 8
  else if s = "sep" || s = "sept" || s = "september" then some 9
  else if s = "oct" || s = "october" then some 10
  else if s = "nov" || s = "november" then some 11
  else if s = "dec" || s = "december" then some 12
  else none

/-- Models validators.py `parse_year`. -/
def parse_year (value : String) : Except CLIErr ℤ :=
  if emptyInput value then .error ⟨"E001", "Input cannot be empty."⟩
  else
    let raw := pyStrip value.data
    if raw.contains '.' then .error ⟨"E007", "Invalid year (must be an integer)."⟩
    else if ¬ isdigitL raw then .error ⟨"E007", "Invalid year (numeric only)."⟩
    else
      let y : ℤ := (digitsToNat raw : ℤ)
      if ¬ (1 ≤ y ∧ y ≤ 9999) then .error ⟨"E008", "Year out of range 1-9999."⟩
      else .ok y

/-- Models validators.py `parse_year_yyyy`. -/
def parse_year_yyyy (value : String) : Except CLIErr ℤ :=
  if emptyInput value then .error ⟨"E001", "Input cannot be empty."⟩
  else
    let raw := pyStrip value.data
    if raw.contains '.' then .error ⟨"E007", "Invalid year (must be an integer)."⟩
    else if ¬ isdigitL raw then .error ⟨"E007", "Invalid year (numeric only)."⟩
    else if raw.length ≠ 4 then .error ⟨"E007", "Invalid year (expected 4 digits, YYYY)."⟩
    else
      let y : ℤ := (digitsToNat raw : ℤ)
      if ¬ (1 ≤ y ∧ y ≤ 9999) then .error ⟨"E008", "Year out of range 1-9999."⟩
      else .ok y

/-- Models validators.py `parse_month` (strip, lowercase, name table, else digits). -/
def parse_month (value : String) : Except CLIErr ℕ :=
  if emptyInput value then .error ⟨"E001", "Input cannot be empty."⟩
  else
    let raw := (pyStrip value.data).map Char.toLower
    match monthLookup raw with
    | some m => .ok m
    | none =>
      if isdigitL raw then
        let m := digitsToNat raw
        if 1 ≤ m ∧ m ≤ 12 then .ok m
        else .error ⟨"E002", "Invalid numeric month"⟩
      else .error ⟨"E002", "Unrecognized month"⟩

/-- Models validators.py `parse_day`. -/
def parse_day (value : String) : Except CLIErr ℕ :=
  if emptyInput value then .error ⟨"E001", "Input cannot be empty."⟩
  else
    let raw := pyStrip value.data
    if ¬ isdigitL raw then .error ⟨"E002", "Invalid day"⟩
    else
      let d := digitsToNat raw
      if ¬ (1 ≤ d ∧ d ≤ 31) then .error ⟨"E002", "Day out of range 1-31"⟩
      else .ok d

/-- Python `str.split(sep)` with a single-character separator. -/
def splitChar (sep : Char) : List Char → List (List Char)
  | [] => [[]]
  | c :: rest =>
    match splitChar sep rest with
    | [] => [[]]
    | g :: gs => if c = sep then [] :: g :: gs else (c :: g) :: gs

/-- Models validators.py `parse_earth_date` (the keyword argument
`is_leap_year_fn` is modelled as an `Option`). -/
def parse_earth_date (date_str : String) (is_leap_year_fn : Option (ℤ → Bool)) :
    Except CLIErr (ℤ × ℕ × ℕ) :=
  if emptyInput date_str then .error ⟨"E001", "Input cannot be empty."⟩
  else
    let raw_date := pyStrip date_str.data
    match splitChar '-' raw_date with
    | [y_raw, m_raw, d_raw] =>
      match parse_year (String.mk y_raw) with
      | .error e => .error e
      | .ok y =>
        match parse_month (String.mk m_raw) with
        | .error e => .error e
        | .ok m =>
          match parse_day (String.mk d_raw) with
          | .error e => .error e
          | .ok d =>
            match is_leap_year_fn with
            | some fn =>
              if m = 2 ∧ d = 29 ∧ fn y = false then
                .error ⟨"E003", "Not a leap year."⟩
              else .ok (y, m, d)
            | none => .ok (y, m, d)
    | _ => .error ⟨"E012", "Invalid date. Expected YYYY-MM-DD."⟩

/-- Models validators.py `validate_stardate_string`. -/
def validate_stardate_string (sd_str : String) : Except CLIErr String :=
  if emptyInput sd_str then .error ⟨"E001", "Input cannot be empty."⟩
  else
    let s := pyStrip sd_str.data
    if s.contains '-' then
      .error ⟨"E011", "Stardate must not contain a dash (Earth date detected)."⟩
    else if ¬ s.contains '.' then
      .error ⟨"E005", "Stardate must contain a decimal (e.g., 2258.042)."⟩
    else if s.count '.' ≠ 1 then
      .error ⟨"E011", "Stardate must contain exactly one decimal point."⟩
    else
      let left := s.takeWhile (fun c => c ≠ '.')
      let right := (s.dropWhile (fun c => c ≠ '.')).drop 1
      if left = [] ∨ right = [] then
        .error ⟨"E011", "Stardate must have digits on both sides of the decimal."⟩
      else if ¬ isdigitL left ∨ ¬ isdigitL right then
        .error ⟨"E011", "Invalid stardate (numeric only)."⟩
      else if left.length ≠ 4 then
        .error ⟨"E011", "Invalid stardate (year must be 4 digits, e.g., 2258.042)."⟩
      else
        let year := digitsToNat left
        if ¬ (1 ≤ year ∧ year ≤ 9999) then
          .error ⟨"E011", "Invalid stardate (year out of range 0001-9999)."⟩
        else if 8 < right.length then
          .error ⟨"E011", "Invalid stardate (fractional part too long)."⟩
        else .ok (String.mk s)

/-- Models validators.py `validate_kelvin_stardate_string`. -/
def validate_kelvin_stardate_string (sd_str : String) : Except CLIErr String :=
  match validate_stardate_string sd_str with
  | .error e => .error e
  | .ok s =>
    let right := (s.data.dropWhile (fun c => c ≠ '.')).drop 1
    if right.length ≠ 3 then
      .error ⟨"E011", "Invalid Kelvin stardate (expected 3-digit ordinal, e.g., 2258.042)."⟩
    else
      let ordinal := digitsToNat right
      if ¬ (1 ≤ ordinal ∧ ordinal ≤ 366) then
        .error ⟨"E011", "Invalid Kelvin stardate (ordinal day must be 001-366)."⟩
      else .ok s

/-- Models validators.py `detect_stardate_type` (the `try` around tuple
unpacking of `split` catches exactly the no-dot case). -/
def detect_stardate_type (sd : String) : String :=
  let s := pyStrip sd.data
  if ¬ s.contains '.' then "kelvin"
  else
    let frac := (s.dropWhile (fun c => c ≠ '.')).drop 1
    if ¬ isdigitL frac then "kelvin"
    else if 4 ≤ frac.length then "astronomical" else "kelvin"

/-- Python `str.isdigit` on one character, over the character set this
development reasons about: the ASCII decimal digits together with the
superscript digits U+00B2, U+00B3 and U+00B9, which have Unicode
Numeric_Type=Digit and so satisfy `isdigit`, but are not decimal digits
and are rejected by the builtin `int()`. -/
def pyIsDigitChar (c : Char) : Bool :=
  isDigitChar c || c.toNat == 178 || c.toNat == 179 || c.toNat == 185

/-- Models Python `str.isdigit()` with the per-character semantics of
`pyIsDigitChar`: nonempty and every character isdigit. -/
def pyIsdigit (cs : List Char) : Bool := !cs.isEmpty && cs.all pyIsDigitChar

/-- The error surface of a validator as its caller sees it: either the coded
`StardateCLIError` the validator raises deliberately, or a bare `ValueError`
escaping from an `int()` call the validator does not guard. -/
inductive PyErr where
  | cli (e : CLIErr)
  | valueError
deriving DecidableEq, Repr

/-- Models validators.py `parse_day` with the full `str.isdigit` semantics of
`pyIsdigit`: the `raw.isdigit()` guard passes for a superscript digit, and
the following unguarded `int(raw)` — which accepts only decimal digits —
then raises a bare `ValueError` that `parse_day` does not catch.  On the
modelled character set `int()` succeeds exactly when `isdigitL` holds. -/
def parse_day_py (value : String) : Except PyErr ℕ :=
  if emptyInput value then .error (.cli ⟨"E001", "Input cannot be empty."⟩)
  else
    let raw := pyStrip value.data
    if ¬ pyIsdigit raw then .error (.cli ⟨"E002", "Invalid day"⟩)
    else if ¬ isdigitL raw then .error .valueError
    else
      let d := digitsToNat raw
      if ¬ (1 ≤ d ∧ d ≤ 31) then .error (.cli ⟨"E002", "Day out of range 1-31"⟩)
      else .ok d

/-- The composition `stardate_to_earth(earth_to_stardate(dt, mode), mode)`:
the forward result (a `KelvinStardate`, or a float in astronomical mode) is
passed as the duck-typed first argument of `stardate_to_earth`. -/
def stardateRoundTrip (dt : CalDate) (mode : String) : Except CoreErr CalDate :=
  match earth_to_stardate dt mode with
  | .error e => .error e
  | .ok (.kelvin v) => stardate_to_earth (.ks v) mode
  | .ok (.astro x) => stardate_to_earth (.flt x) mode

/-- The keys of `ERROR_REGISTRY` in errors.py. -/
def registryCodes : List String :=
  ["E001", "E002", "E003", "E004", "E005", "E006",
   "E007", "E008", "E009", "E010", "E011", "E012"]

/-- A validator outcome is either a value or a structured error whose code is
registered: this is the §4.4 totality contract to be proved of each validator. -/
def okOrCoded {α : Type} (r : Except CLIErr α) : Prop :=
  ∀ e, r = Except.error e → e.code ∈ registryCodes

/-- Acceptance condition stated by the spec for
`validate_kelvin_stardate_string`, read on the whitespace-stripped input
(which is what the validator returns): no dash, exactly one dot, the left
side exactly 4 digits giving a year in 1..9999, the right side exactly
3 digits giving an ordinal in 1..366. -/
def kelvinStringSpec (s : String) : Prop :=
  let cs := pyStrip s.data
  let left := cs.takeWhile (fun c => c ≠ '.')
  let right := (cs.dropWhile (fun c => c ≠ '.')).drop 1
  cs.contains '-' = false ∧ cs.count '.' = 1 ∧
    left.length = 4 ∧ isdigitL left = true ∧
    1 ≤ digitsToNat left ∧ digitsToNat left ≤ 9999 ∧
    right.length = 3 ∧ isdigitL right = true ∧
    1 ≤ digitsToNat right ∧ digitsToNat right ≤ 366

/-!
Bounded calendar facts, each settled by exhaustive evaluation over the
(month, day) or ordinal range.
-/

theorem mdo_valid (leap : Bool) :
    ∀ m : ℕ, m < 13 → ∀ d : ℕ, d < 32 →
      1 ≤ m → 1 ≤ d → d ≤ daysInMonth leap m →
      monthDayOfOrdinal leap (daysBeforeMonth leap m + d) = (m, d) := by
  cases leap <;> decide

theorem doy_le (leap : Bool) :
    ∀ m : ℕ, m < 13 → ∀ d : ℕ, d < 32 →
      1 ≤ m → 1 ≤ d → d ≤ daysInMonth leap m →
      daysBeforeMonth leap m + d ≤ (if leap then 366 else 365) := by
  cases leap <;> decide

theorem after_iff_doy (leap : Bool) :
    ∀ m : ℕ, m < 13 → ∀ d : ℕ, d < 32 →
      1 ≤ m → 1 ≤ d → d ≤ daysInMonth leap m →
      (dateAfterFeb28 ⟨0, m, d⟩ = true ↔ 60 ≤ daysBeforeMonth leap m + d) := by
  cases leap <;> decide

theorem after_ne_feb29 :
    ∀ m : ℕ, m < 13 → ∀ d : ℕ, d < 32 →
      1 ≤ m → 1 ≤ d → d ≤ daysInMonth true m →
      dateAfterFeb28 ⟨0, m, d⟩ = true → ¬ (m = 2 ∧ d = 29) →
      61 ≤ daysBeforeMonth true m + d := by
  decide

theorem mdo_ne_feb29 (leap : Bool) :
    ∀ r : ℕ, r < 367 →
      monthDayOfOrdinal leap r = (2, 29) → leap = true ∧ r = 60 := by
  cases leap <;> decide

theorem mdo_range (leap : Bool) :
    ∀ r : ℕ, r < 366 → 1 ≤ r →
      1 ≤ (monthDayOfOrdinal leap r).1 ∧ (monthDayOfOrdinal leap r).1 ≤ 12 ∧
      1 ≤ (monthDayOfOrdinal leap r).2 ∧
      (monthDayOfOrdinal leap r).2 ≤ daysInMonth leap (monthDayOfOrdinal leap r).1 := by
  cases leap <;> decide

/-!
Unfolding lemmas for the conversion core at fixed mode strings.
-/

theorem ets_gregorian (dt : CalDate) :
    earth_to_stardate dt "gregorian" = .ok (.kelvin ⟨dt.year, (day_of_year dt : ℤ)⟩) := rfl

theorem ets_noleap (dt : CalDate) :
    earth_to_stardate dt "no_leap" =
      .ok (.kelvin ⟨dt.year,
        if is_leap_year dt.year && dateAfterFeb28 dt then (day_of_year dt : ℤ) - 1
        else (day_of_year dt : ℤ)⟩) := by
  show (if is_leap_year dt.year && dateAfterFeb28 dt then
          (Except.ok (.kelvin ⟨dt.year, (day_of_year dt : ℤ) - 1⟩) : Except CoreErr EtsResult)
        else .ok (.kelvin ⟨dt.year, (day_of_year dt : ℤ)⟩)) = _
  by_cases hc : is_leap_year dt.year && dateAfterFeb28 dt
  · rw [if_pos hc, if_pos hc]
  · rw [if_neg hc, if_neg hc]

theorem ste_gregorian_ks (v : KelvinStardate) (h1 : 1 ≤ v.ordinal_day)
    (h2 : v.ordinal_day ≤ (if is_leap_year v.year then (366 : ℤ) else 365)) :
    stardate_to_earth (.ks v) "gregorian" = .ok (dateFromOrdinal v.year v.ordinal_day.toNat) := by
  show (if ¬ (1 ≤ v.ordinal_day ∧ v.ordinal_day ≤ (if is_leap_year v.year then (366 : ℤ) else 365))
        then (Except.error (.stardate "Ordinal out of range for Gregorian") : Except CoreErr CalDate)
        else .ok (dateFromOrdinal v.year v.ordinal_day.toNat)) = _
  rw [if_neg (not_not_intro ⟨h1, h2⟩)]

theorem ste_noleap_ks (v : KelvinStardate) (h1 : 1 ≤ v.ordinal_day) (h2 : v.ordinal_day ≤ 365) :
    stardate_to_earth (.ks v) "no_leap" =
      if (if is_leap_year v.year then (366 : ℤ) else 365) <
          (if is_leap_year v.year && decide (59 < v.ordinal_day) then v.ordinal_day + 1
           else v.ordinal_day) then
        .error (.stardate "Real ordinal exceeds year length")
      else
        .ok (dateFromOrdinal v.year
          (if is_leap_year v.year && decide (59 < v.ordinal_day) then v.ordinal_day + 1
           else v.ordinal_day).toNat) := by
  show (if ¬ (1 ≤ v.ordinal_day ∧ v.ordinal_day ≤ 365)
        then (Except.error (.stardate "Ordinal must be 1..365 in no_leap mode") : Except CoreErr CalDate)
        else _) = _
  rw [if_neg (not_not_intro ⟨h1, h2⟩)]

theorem daysInMonth_le (leap : Bool) : ∀ m : ℕ, m < 13 → daysInMonth leap m ≤ 31 := by
  cases leap <;> decide

/-- C3: for every valid (year, month, day) calendar date,
`stardate_to_earth(earth_to_stardate(date, "gregorian"), "gregorian")` equals
the original date. -/
theorem C3_gregorian_roundtrip (d : CalDate) (h : ValidDate d) :
    stardateRoundTrip d "gregorian" = .ok d := by
  obtain ⟨y, m, dd⟩ := d
  obtain ⟨hy1, hy2, hm1, hm2, hd1, hd2⟩ := h
  dsimp only at hy1 hy2 hm1 hm2 hd1 hd2
  have hm13 : m < 13 := by omega
  have hd32 : dd < 32 := by
    have := daysInMonth_le (is_leap_year y) m hm13
    omega
  have hmdo := mdo_valid (is_leap_year y) m hm13 dd hd32 hm1 hd1 hd2
  have hdoyle := doy_le (is_leap_year y) m hm13 dd hd32 hm1 hd1 hd2
  have h1 : (1 : ℤ) ≤ ((daysBeforeMonth (is_leap_year y) m + dd : ℕ) : ℤ) := by
    exact_mod_cast (by omega : 1 ≤ daysBeforeMonth (is_leap_year y) m + dd)
  have h2 : ((daysBeforeMonth (is_leap_year y) m + dd : ℕ) : ℤ) ≤
      (if is_leap_year y then (366 : ℤ) else 365) := by
    split
    next hL => rw [hL] at hdoyle ⊢; simp at hdoyle; exact_mod_cast hdoyle
    next hL =>
      rw [Bool.not_eq_true] at hL
      rw [hL] at hdoyle ⊢; simp at hdoyle; exact_mod_cast hdoyle
  unfold stardateRoundTrip
  rw [ets_gregorian]
  show stardate_to_earth
      (.ks ⟨y, ((daysBeforeMonth (is_leap_year y) m + dd : ℕ) : ℤ)⟩) "gregorian" =
    .ok ⟨y, m, dd⟩
  rw [ste_gregorian_ks ⟨y, ((daysBeforeMonth (is_leap_year y) m + dd : ℕ) : ℤ)⟩ h1 h2]
  simp only [Int.toNat_natCast, dateFromOrdinal]
  show Except.ok (⟨y, (monthDayOfOrdinal (is_leap_year y) (daysBeforeMonth (is_leap_year y) m + dd)).1,
    (monthDayOfOrdinal (is_leap_year y) (daysBeforeMonth (is_leap_year y) m + dd)).2⟩ : CalDate) = _
  rw [hmdo]

theorem C3_gregorian_roundtrip_witness :
    ValidDate ⟨2260, 3, 1⟩ ∧ stardateRoundTrip ⟨2260, 3, 1⟩ "gregorian" = .ok ⟨2260, 3, 1⟩ :=
  ⟨by decide, C3_gregorian_roundtrip ⟨2260, 3, 1⟩ (by decide)⟩

theorem ste_noleap_ks_eval (y o real : ℤ) (h1 : 1 ≤ o) (h2 : o ≤ 365)
    (hreal : real = if is_leap_year y && decide (59 < o) then o + 1 else o)
    (hle : real ≤ (if is_leap_year y then (366 : ℤ) else 365)) :
    stardate_to_earth (.ks ⟨y, o⟩) "no_leap" = .ok (dateFromOrdinal y real.toNat) := by
  rw [ste_noleap_ks ⟨y, o⟩ h1 h2]
  dsimp only
  rw [← hreal, if_neg (not_lt.mpr hle)]

/-- C1 fails as stated: Feb 29 of the leap year 2260 is a valid calendar date
after Feb 28, yet its no_leap round trip returns Feb 28, not the original
date (the forward map sends both Feb 28 and Feb 29 to ordinal 59). -/
theorem C1_counterexample :
    ValidDate ⟨2260, 2, 29⟩ ∧
      stardateRoundTrip ⟨2260, 2, 29⟩ "no_leap" = .ok ⟨2260, 2, 28⟩ ∧
      (⟨2260, 2, 28⟩ : CalDate) ≠ ⟨2260, 2, 29⟩ :=
  ⟨by decide, rfl, by decide⟩

/-- C1 (amended): converting forward with earth_to_stardate(date, no_leap) and
back with stardate_to_earth(result, no_leap) returns the original date for
every valid calendar date other than Feb 29 of a leap year (which returns
Feb 28 instead). -/
theorem C1_noleap_roundtrip (d : CalDate) (h : ValidDate d)
    (hne : ¬ (d.month = 2 ∧ d.day = 29)) :
    stardateRoundTrip d "no_leap" = .ok d := by
  obtain ⟨y, m, dd⟩ := d
  obtain ⟨hy1, hy2, hm1, hm2, hd1, hd2⟩ := h
  dsimp only at hy1 hy2 hm1 hm2 hd1 hd2 hne
  have hm13 : m < 13 := by omega
  have hd32 : dd < 32 := by have := daysInMonth_le (is_leap_year y) m hm13; omega
  have hmdo := mdo_valid (is_leap_year y) m hm13 dd hd32 hm1 hd1 hd2
  have hdoyle := doy_le (is_leap_year y) m hm13 dd hd32 hm1 hd1 hd2
  have hafter := after_iff_doy (is_leap_year y) m hm13 dd hd32 hm1 hd1 hd2
  have hAmk : dateAfterFeb28 ⟨y, m, dd⟩ = dateAfterFeb28 ⟨0, m, dd⟩ := rfl
  have hdoy1 : 1 ≤ daysBeforeMonth (is_leap_year y) m + dd := by omega
  set n : ℕ := daysBeforeMonth (is_leap_year y) m + dd with hn
  unfold stardateRoundTrip
  rw [ets_noleap]
  by_cases hc : (is_leap_year y && dateAfterFeb28 ⟨y, m, dd⟩) = true
  · -- leap year, after Feb 28: forward ordinal is n - 1, backward adds 1 back
    obtain ⟨hL, hA⟩ := Bool.and_eq_true_iff.mp hc
    have h61 : 61 ≤ n := by
      have := after_ne_feb29 m hm13 dd hd32 hm1 hd1 (by rw [hL] at hd2; exact hd2)
        (hAmk ▸ hA) hne
      rw [hn, hL]
      exact this
    have h366 : n ≤ 366 := by
      rw [hL] at hdoyle
      simpa using hdoyle
    show stardate_to_earth (.ks ⟨y,
      if (is_leap_year y && dateAfterFeb28 ⟨y, m, dd⟩) = true then ((n : ℕ) : ℤ) - 1
      else ((n : ℕ) : ℤ)⟩) "no_leap" = .ok ⟨y, m, dd⟩
    rw [if_pos hc]
    rw [ste_noleap_ks_eval y (((n : ℕ) : ℤ) - 1) ((n : ℕ) : ℤ) (by omega) (by omega)
      (by rw [hL, decide_eq_true (show (59 : ℤ) < ((n : ℕ) : ℤ) - 1 from by omega)]
          norm_num)
      (by rw [hL]; norm_num; omega)]
    have htn : (((n : ℕ) : ℤ)).toNat = n := by omega
    rw [htn]
    simp only [dateFromOrdinal]
    rw [hmdo]
  · -- not (leap and after): forward ordinal is n itself and comes straight back
    have hsplit : is_leap_year y = false ∨ dateAfterFeb28 ⟨y, m, dd⟩ = false :=
      Bool.and_eq_false_iff.mp (Bool.not_eq_true _ |>.mp hc)
    have h365 : n ≤ 365 := by
      rcases hsplit with hL | hA
      · rw [hL] at hdoyle
        simpa using hdoyle
      · have : ¬ 60 ≤ n := by
          intro hge
          have := hafter.mpr hge
          rw [hAmk, this] at hA
          exact Bool.true_eq_false.mp hA
        omega
    show stardate_to_earth (.ks ⟨y,
      if (is_leap_year y && dateAfterFeb28 ⟨y, m, dd⟩) = true then ((n : ℕ) : ℤ) - 1
      else ((n : ℕ) : ℤ)⟩) "no_leap" = .ok ⟨y, m, dd⟩
    rw [if_neg hc]
    rw [ste_noleap_ks_eval y ((n : ℕ) : ℤ) ((n : ℕ) : ℤ) (by omega) (by omega)
      (by rcases hsplit with hL | hA
          · rw [hL, Bool.false_and]
            norm_num
          · have hle59 : n ≤ 59 := by
              have : ¬ 60 ≤ n := by
                intro hge
                have := hafter.mpr hge
                rw [hAmk, this] at hA
                exact Bool.true_eq_false.mp hA
              omega
            rw [decide_eq_false (show ¬ (59 : ℤ) < ((n : ℕ) : ℤ) from by omega), Bool.and_false]
            norm_num)
      (by split <;> omega)]
    have htn : (((n : ℕ) : ℤ)).toNat = n := by omega
    rw [htn]
    simp only [dateFromOrdinal]
    rw [hmdo]

theorem C1_noleap_roundtrip_witness :
    ValidDate ⟨2260, 3, 1⟩ ∧
      ¬ ((⟨2260, 3, 1⟩ : CalDate).month = 2 ∧ (⟨2260, 3, 1⟩ : CalDate).day = 29) ∧
      stardateRoundTrip ⟨2260, 3, 1⟩ "no_leap" = .ok ⟨2260, 3, 1⟩ :=
  ⟨by decide, by decide, C1_noleap_roundtrip ⟨2260, 3, 1⟩ (by decide) (by decide)⟩

/-- C5: for a valid date in a leap year, the ordinal produced by
earth_to_stardate in no_leap mode equals the gregorian-mode ordinal minus 1
when day_of_year exceeds 59, and equals it when day_of_year is at most 59. -/
theorem C5_leap_compression (d : CalDate) (h : ValidDate d)
    (hL : is_leap_year d.year = true) (gOrd nOrd : ℤ)
    (hg : earth_to_stardate d "gregorian" = .ok (.kelvin ⟨d.year, gOrd⟩))
    (hn : earth_to_stardate d "no_leap" = .ok (.kelvin ⟨d.year, nOrd⟩)) :
    (59 < day_of_year d → nOrd = gOrd - 1) ∧ (day_of_year d ≤ 59 → nOrd = gOrd) := by
  obtain ⟨y, m, dd⟩ := d
  obtain ⟨hy1, hy2, hm1, hm2, hd1, hd2⟩ := h
  dsimp only at hy1 hy2 hm1 hm2 hd1 hd2 hL hg hn ⊢
  have hm13 : m < 13 := by omega
  have hd32 : dd < 32 := by have := daysInMonth_le (is_leap_year y) m hm13; omega
  have hafter := after_iff_doy (is_leap_year y) m hm13 dd hd32 hm1 hd1 hd2
  have hAmk : dateAfterFeb28 ⟨y, m, dd⟩ = dateAfterFeb28 ⟨0, m, dd⟩ := rfl
  rw [ets_gregorian] at hg
  rw [ets_noleap] at hn
  simp only [Except.ok.injEq, EtsResult.kelvin.injEq, KelvinStardate.mk.injEq, true_and] at hg hn
  constructor
  · intro h59
    have hA : dateAfterFeb28 ⟨y, m, dd⟩ = true := by
      rw [hAmk]
      refine hafter.mpr ?_
      simp only [day_of_year] at h59
      omega
    rw [hL, hA, Bool.and_self] at hn
    norm_num at hn
    simp only [day_of_year] at hg hn
    omega
  · intro h59
    have hA : dateAfterFeb28 ⟨y, m, dd⟩ = false := by
      rw [hAmk]
      refine Bool.eq_false_iff.mpr fun htrue => ?_
      have := hafter.mp htrue
      simp only [day_of_year] at h59
      omega
    rw [hA, Bool.and_false] at hn
    norm_num at hn
    simp only [day_of_year] at hg hn
    omega

theorem C5_leap_compression_witness :
    (59 < day_of_year ⟨2260, 3, 1⟩ → (60 : ℤ) = 61 - 1) ∧
      (day_of_year ⟨2260, 3, 1⟩ ≤ 59 → (60 : ℤ) = 61) :=
  C5_leap_compression ⟨2260, 3, 1⟩ (by decide) (by decide) 61 60 rfl rfl

/-- C9: for every year and ordinal_day in 1..365, the date returned by
stardate_to_earth in no_leap mode is never February 29. -/
theorem C9_noleap_never_feb29 (y o : ℤ) (d : CalDate) (h1 : 1 ≤ o) (h2 : o ≤ 365)
    (h : stardate_to_earth (.ks ⟨y, o⟩) "no_leap" = .ok d) :
    ¬ (d.month = 2 ∧ d.day = 29) := by
  set real := if is_leap_year y && decide (59 < o) then o + 1 else o with hrdef
  have hle : real ≤ (if is_leap_year y then (366 : ℤ) else 365) := by
    cases hLb : is_leap_year y
    · rw [hrdef, hLb]
      simp
      omega
    · rw [hrdef, hLb]
      simp
      split <;> omega
  rw [ste_noleap_ks_eval y o real h1 h2 hrdef hle] at h
  have hd' : d = dateFromOrdinal y real.toNat := by
    simpa using h.symm
  subst hd'
  rintro ⟨hmm, hdd⟩
  simp only [dateFromOrdinal] at hmm hdd
  have hr1 : 1 ≤ real := by rw [hrdef]; split <;> omega
  have hr367 : real.toNat < 367 := by
    have : real ≤ 366 := by rw [hrdef]; split <;> omega
    omega
  obtain ⟨hL, h60⟩ := mdo_ne_feb29 (is_leap_year y) real.toNat hr367
    (Prod.ext_iff.mpr ⟨hmm, hdd⟩)
  rw [hrdef, hL, Bool.true_and] at h60
  by_cases ho : (59 : ℤ) < o
  · rw [if_pos (by simpa using ho)] at h60
    omega
  · rw [if_neg (by simpa using ho)] at h60
    omega

theorem C9_noleap_never_feb29_witness :
    ¬ ((⟨2260, 3, 1⟩ : CalDate).month = 2 ∧ (⟨2260, 3, 1⟩ : CalDate).day = 29) :=
  C9_noleap_never_feb29 2260 60 ⟨2260, 3, 1⟩ (by decide) (by decide) rfl

/-- C4 (amended): for every valid date and every leap_mode string other than
no_leap, gregorian, and astronomical (which returns a float stardate),
earth_to_stardate raises a ConversionError and never returns a value. -/
theorem C4_unknown_mode (dt : CalDate) (mode : String)
    (h1 : mode ≠ "astronomical") (h2 : mode ≠ "gregorian") (h3 : mode ≠ "no_leap") :
    earth_to_stardate dt mode = .error (.stardate ("Unknown leap_mode: " ++ mode)) := by
  simp only [earth_to_stardate]
  rw [if_neg h1, if_neg h2, if_neg h3]

theorem C4_unknown_mode_witness :
    earth_to_stardate ⟨2258, 2, 11⟩ "all" =
      .error (.stardate ("Unknown leap_mode: " ++ "all")) :=
  C4_unknown_mode ⟨2258, 2, 11⟩ "all" (by decide) (by decide) (by decide)

/-!
Exact-rational facts about Python's round-half-even.
-/

theorem tie_floor (x : ℚ) (htie : Int.fract x = 1 / 2) : x = (⌊x⌋ : ℚ) + 1 / 2 := by
  have := Int.floor_add_fract x
  rw [htie] at this
  linarith

theorem abs_pyRound_sub (x : ℚ) : |(pyRound x : ℚ) - x| ≤ 1 / 2 := by
  unfold pyRound
  split
  · next htie =>
    have hx : x = (⌊x⌋ : ℚ) + 1 / 2 := tie_floor x htie
    rcases Int.even_or_odd ⌊x⌋ with ⟨k, hk⟩ | ⟨k, hk⟩
    · have hx2 : x / 2 = (k : ℚ) + 3 / 4 - 1 / 2 := by
        rw [hx, hk]; push_cast; ring
      have hr : round (x / 2) = k := by
        rw [round_eq, hx2]
        have : (k : ℚ) + 3 / 4 - 1 / 2 + 1 / 2 = (k : ℚ) + 3 / 4 := by ring
        rw [this, Int.floor_int_add]
        norm_num
      rw [hr, hx, hk]
      push_cast
      rw [abs_le]
      constructor <;> linarith
    · have hx2 : x / 2 = (k : ℚ) + 5 / 4 - 1 / 2 := by
        rw [hx, hk]; push_cast; ring
      have hr : round (x / 2) = k + 1 := by
        rw [round_eq, hx2]
        have : (k : ℚ) + 5 / 4 - 1 / 2 + 1 / 2 = (k : ℚ) + 5 / 4 := by ring
        rw [this, Int.floor_int_add]
        norm_num
      rw [hr, hx, hk]
      push_cast
      rw [abs_le]
      constructor <;> linarith
  · next =>
    rw [abs_sub_comm]
    exact abs_sub_round x

theorem pyRound_eq_of (x : ℚ) (m : ℤ) (h : |x - (m : ℚ)| < 1 / 2) : pyRound x = m := by
  obtain ⟨hlo, hhi⟩ := abs_lt.mp h
  unfold pyRound
  split
  · next htie =>
    exfalso
    have hx : x = (⌊x⌋ : ℚ) + 1 / 2 := tie_floor x htie
    have h1 : (⌊x⌋ : ℚ) < (m : ℚ) := by rw [hx] at hhi; linarith
    have h2 : (m : ℚ) < (⌊x⌋ : ℚ) + 1 := by rw [hx] at hlo; linarith
    have h1' : ⌊x⌋ < m := by exact_mod_cast h1
    have h2' : (m : ℚ) < ((⌊x⌋ + 1 : ℤ) : ℚ) := by push_cast; linarith
    have h2'' : m < ⌊x⌋ + 1 := by exact_mod_cast h2'
    omega
  · next =>
    rw [round_eq]
    refine Int.floor_eq_iff.mpr ⟨by linarith, ?_⟩
    linarith

/-- C4 fails as stated: the mode string astronomical is neither no_leap nor
gregorian, yet earth_to_stardate returns a value for it (the float stardate)
instead of raising a ConversionError. -/
theorem C4_counterexample :
    ("astronomical" : String) ≠ "no_leap" ∧ ("astronomical" : String) ≠ "gregorian" ∧
      earth_to_stardate ⟨2258, 2, 11⟩ "astronomical" =
        .ok (.astro (225811499 / 100000)) :=
  ⟨by decide, by decide, by
    have h1 : pyRound ((1570970600000 : ℚ) / 6957) = 225811499 := by
      apply pyRound_eq_of
      rw [abs_lt]
      constructor <;> norm_num
    norm_num [earth_to_stardate, earth_to_stardate_astronomical, pyRound5,
      yearLen, day_of_year, daysBeforeMonth, daysInMonth, is_leap_year, h1]⟩


/-- C2 fails as stated: Dec 31 of the leap year 2260 (ordinal 366) is a
valid calendar date, but its astronomical round trip lands on Jan 1 of 2261:
the forward fraction 366/365.2425 exceeds 1, so the backward year floor moves
into the next year. -/
theorem C2_counterexample :
    ValidDate ⟨2260, 12, 31⟩ ∧
      stardate_to_earth_astronomical (earth_to_stardate_astronomical ⟨2260, 12, 31⟩) =
        ⟨2261, 1, 1⟩ ∧
      (⟨2261, 1, 1⟩ : CalDate) ≠ ⟨2260, 12, 31⟩ := by
  refine ⟨by decide, ?_, by decide⟩
  have h1 : earth_to_stardate_astronomical ⟨2260, 12, 31⟩ = 226100207 / 100000 := by
    have hp : pyRound ((11010854000000 : ℚ) / 48699) = 226100207 := by
      apply pyRound_eq_of
      rw [abs_lt]
      constructor <;> norm_num
    norm_num [earth_to_stardate_astronomical, pyRound5, yearLen, day_of_year,
      daysBeforeMonth, daysInMonth, is_leap_year, hp]
  rw [h1]
  have hfl : ⌊(226100207 : ℚ) / 100000⌋ = 2261 := by
    rw [Int.floor_eq_iff]
    norm_num
  have hp2 : pyRound (((226100207 : ℚ) / 100000 - ((2261 : ℤ) : ℚ)) * yearLen) = 1 := by
    apply pyRound_eq_of
    rw [abs_lt]
    constructor <;> norm_num [yearLen]
  unfold stardate_to_earth_astronomical astro_doy pyInt
  rw [if_neg (by norm_num : ¬ (226100207 : ℚ) / 100000 < 0), hfl]
  simp only [hp2]
  decide

theorem astro_inverse (y : ℤ) (n : ℕ) (hn1 : 1 ≤ n) (hn365 : n ≤ 365) (hy1 : 1 ≤ y) :
    stardate_to_earth_astronomical (pyRound5 ((y : ℚ) + (n : ℚ) / yearLen)) =
      dateFromOrdinal y n := by
  have hnq1 : (1 : ℚ) ≤ (n : ℚ) := by exact_mod_cast hn1
  have hnq365 : (n : ℚ) ≤ 365 := by exact_mod_cast hn365
  have hyq1 : (1 : ℚ) ≤ (y : ℚ) := by exact_mod_cast hy1
  have hfy : ((n : ℚ) / yearLen) * (3652425 / 10000) = (n : ℚ) := by
    rw [show yearLen = 3652425 / 10000 from rfl]
    field_simp
  set f : ℚ := (n : ℚ) / yearLen with hfdef
  have hf_lo : 1 / 200000 < f := by linarith
  have hf_hi : f < 1 - 1 / 200000 := by linarith
  obtain ⟨h1, h2⟩ := abs_le.mp (abs_pyRound_sub (((y : ℚ) + f) * 100000))
  set R : ℤ := pyRound (((y : ℚ) + f) * 100000) with hRdef
  show stardate_to_earth_astronomical ((R : ℚ) / 100000) = dateFromOrdinal y n
  have hsd_lo : (y : ℚ) < (R : ℚ) / 100000 := by linarith
  have hsd_hi : (R : ℚ) / 100000 < (y : ℚ) + 1 := by linarith
  have hfl : ⌊(R : ℚ) / 100000⌋ = y :=
    Int.floor_eq_iff.mpr ⟨le_of_lt hsd_lo, by linarith⟩
  have hsd_nonneg : ¬ ((R : ℚ) / 100000 < 0) := not_lt.mpr (by linarith)
  have hback : pyRound (((R : ℚ) / 100000 - ((y : ℤ) : ℚ)) * yearLen) = (n : ℤ) := by
    apply pyRound_eq_of
    rw [abs_lt, show yearLen = 3652425 / 10000 from rfl]
    constructor
    · push_cast
      nlinarith [hfy, h1, h2]
    · push_cast
      nlinarith [hfy, h1, h2]
  unfold stardate_to_earth_astronomical astro_doy pyInt
  rw [if_neg hsd_nonneg, hfl]
  simp only [hback]
  rw [if_neg (show ¬ ((n : ℤ) : ℤ) < 1 by exact_mod_cast not_lt.mpr (by exact_mod_cast hn1))]
  rw [Int.toNat_natCast]

/-- C2 (amended): the astronomical round trip
`stardate_to_earth_astronomical(earth_to_stardate_astronomical(date))` returns
exactly the original calendar date for every valid date whose day_of_year is
at most 365; for Dec 31 of a leap year (ordinal 366) it instead returns Jan 1
of the following year, so the claim does not hold for those dates. -/
theorem C2_astro_roundtrip (d : CalDate) (h : ValidDate d)
    (h365 : day_of_year d ≤ 365) :
    stardate_to_earth_astronomical (earth_to_stardate_astronomical d) = d := by
  obtain ⟨y, m, dd⟩ := d
  obtain ⟨hy1, hy2, hm1, hm2, hd1, hd2⟩ := h
  dsimp only at hy1 hy2 hm1 hm2 hd1 hd2
  simp only [day_of_year] at h365
  have hm13 : m < 13 := by omega
  have hd32 : dd < 32 := by have := daysInMonth_le (is_leap_year y) m hm13; omega
  have hmdo := mdo_valid (is_leap_year y) m hm13 dd hd32 hm1 hd1 hd2
  show stardate_to_earth_astronomical
      (pyRound5 ((y : ℚ) + ((daysBeforeMonth (is_leap_year y) m + dd : ℕ) : ℚ) / yearLen)) =
    (⟨y, m, dd⟩ : CalDate)
  rw [astro_inverse y (daysBeforeMonth (is_leap_year y) m + dd) (by omega) h365 hy1]
  simp only [dateFromOrdinal]
  rw [hmdo]

theorem C2_astro_roundtrip_witness :
    ValidDate ⟨2258, 2, 11⟩ ∧ day_of_year ⟨2258, 2, 11⟩ ≤ 365 ∧
      stardate_to_earth_astronomical (earth_to_stardate_astronomical ⟨2258, 2, 11⟩) =
        ⟨2258, 2, 11⟩ :=
  ⟨by decide, by decide, C2_astro_roundtrip ⟨2258, 2, 11⟩ (by decide) (by decide)⟩

/-- C10: for every float stardate sd with 1 ≤ floor(sd) ≤ 9999, the ordinal
day computed inside stardate_to_earth_astronomical lies in [1, 365], so the
returned date lies within year floor(sd) and the downstream date construction
never receives an out-of-range day. -/
theorem C10_astro_doy_safe (sd : ℚ) (h1 : 1 ≤ ⌊sd⌋) (h2 : ⌊sd⌋ ≤ 9999) :
    1 ≤ astro_doy sd ∧ astro_doy sd ≤ 365 ∧
      (stardate_to_earth_astronomical sd).year = ⌊sd⌋ ∧
      ValidDate (stardate_to_earth_astronomical sd) := by
  have hsd1 : (1 : ℚ) ≤ sd := by
    have := Int.le_floor.mp h1
    exact_mod_cast this
  have hpos : ¬ sd < 0 := not_lt.mpr (by linarith)
  have hpyInt : pyInt sd = ⌊sd⌋ := by unfold pyInt; rw [if_neg hpos]
  have hfr0 : (0 : ℚ) ≤ sd - (⌊sd⌋ : ℚ) := by linarith [Int.floor_le sd]
  have hfr1 : sd - (⌊sd⌋ : ℚ) < 1 := by linarith [Int.lt_floor_add_one sd]
  obtain ⟨hb1, hb2⟩ := abs_le.mp (abs_pyRound_sub ((sd - ((⌊sd⌋ : ℤ) : ℚ)) * yearLen))
  have hvle : pyRound ((sd - ((⌊sd⌋ : ℤ) : ℚ)) * yearLen) ≤ 365 := by
    by_contra hgt
    push_neg at hgt
    have h366 : (366 : ℚ) ≤ ((pyRound ((sd - ((⌊sd⌋ : ℤ) : ℚ)) * yearLen) : ℤ) : ℚ) := by
      exact_mod_cast hgt
    rw [show yearLen = 3652425 / 10000 from rfl] at hb1 hb2 h366
    linarith
  have had : astro_doy sd =
      if pyRound ((sd - ((⌊sd⌋ : ℤ) : ℚ)) * yearLen) < 1 then 1
      else pyRound ((sd - ((⌊sd⌋ : ℤ) : ℚ)) * yearLen) := by
    simp only [astro_doy, hpyInt]
  have hd1 : 1 ≤ astro_doy sd := by rw [had]; split <;> omega
  have hd365 : astro_doy sd ≤ 365 := by rw [had]; split <;> omega
  have hk1 : 1 ≤ (astro_doy sd).toNat := by omega
  have hk366 : (astro_doy sd).toNat < 366 := by omega
  have hmr := mdo_range (is_leap_year ⌊sd⌋) (astro_doy sd).toNat hk366 hk1
  have hout : stardate_to_earth_astronomical sd =
      dateFromOrdinal ⌊sd⌋ (astro_doy sd).toNat := by
    unfold stardate_to_earth_astronomical
    rw [hpyInt]
  refine ⟨hd1, hd365, ?_, ?_⟩
  · rw [hout]; rfl
  · rw [hout]
    exact ⟨h1, h2, hmr.1, hmr.2.1, hmr.2.2.1, hmr.2.2.2⟩

theorem C10_astro_doy_safe_witness :
    (1 : ℤ) ≤ ⌊(2258 : ℚ)⌋ ∧ ⌊(2258 : ℚ)⌋ ≤ 9999 ∧
      (1 ≤ astro_doy 2258 ∧ astro_doy 2258 ≤ 365 ∧
        (stardate_to_earth_astronomical 2258).year = ⌊(2258 : ℚ)⌋ ∧
        ValidDate (stardate_to_earth_astronomical 2258)) :=
  ⟨by simp, by simp, C10_astro_doy_safe 2258 (by simp) (by simp)⟩

/-!
Digit-string facts used by the formatting and validator claims.
-/

theorem digitChar_facts : ∀ k : ℕ, k < 10 →
    isDigitChar (digitChar k) = true ∧ (digitChar k).toNat = 48 + k := by
  decide

theorem natDigits_all (n : ℕ) : ∀ c ∈ natDigits n, isDigitChar c = true := by
  induction n using Nat.strong_induction_on with
  | _ n ih =>
    rw [natDigits]
    split
    · next h =>
      intro c hc
      simp only [List.mem_singleton] at hc
      subst hc
      exact (digitChar_facts n h).1
    · next h =>
      intro c hc
      rw [List.mem_append] at hc
      rcases hc with hc | hc
      · exact ih (n / 10) (Nat.div_lt_self (by omega) (by omega)) c hc
      · simp only [List.mem_singleton] at hc
        subst hc
        exact (digitChar_facts (n % 10) (Nat.mod_lt n (by omega))).1

theorem natDigits_ne_nil (n : ℕ) : natDigits n ≠ [] := by
  rw [natDigits]
  split <;> simp

theorem digitsToNat_snoc (A : List Char) (c : Char) :
    digitsToNat (A ++ [c]) = 10 * digitsToNat A + (c.toNat - 48) := by
  simp [digitsToNat, List.foldl_append]

theorem natDigits_val (n : ℕ) : digitsToNat (natDigits n) = n := by
  induction n using Nat.strong_induction_on with
  | _ n ih =>
    rw [natDigits]
    split
    · next h =>
      show 10 * 0 + ((digitChar n).toNat - 48) = n
      rw [(digitChar_facts n h).2]
      omega
    · next h =>
      rw [digitsToNat_snoc, ih (n / 10) (Nat.div_lt_self (by omega) (by omega)),
        (digitChar_facts (n % 10) (Nat.mod_lt n (by omega))).2]
      omega

theorem digitsToNat_cons_zero (l : List Char) : digitsToNat ('0' :: l) = digitsToNat l := rfl

theorem digitsToNat_leading_zeros (k : ℕ) (A : List Char) :
    digitsToNat (List.replicate k '0' ++ A) = digitsToNat A := by
  induction k with
  | zero => rfl
  | succ k ih => exact ih

theorem digit_ne (c : Char) (h : isDigitChar c = true) :
    c ≠ '.' ∧ c ≠ '-' ∧ c ≠ '+' := by
  unfold isDigitChar at h
  rw [Bool.and_eq_true, decide_eq_true_iff, decide_eq_true_iff] at h
  refine ⟨?_, ?_, ?_⟩ <;> intro hEq <;> subst hEq <;> revert h <;> decide

theorem digit_not_space (c : Char) (h : isDigitChar c = true) : pyIsSpace c = false := by
  have hx := h
  unfold isDigitChar at hx
  rw [Bool.and_eq_true, decide_eq_true_iff, decide_eq_true_iff] at hx
  have h1 : c ≠ ' ' := by intro hEq; subst hEq; revert h; decide
  have h2 : c ≠ Char.ofNat 9 := by intro hEq; subst hEq; revert h; decide
  have h3 : c ≠ Char.ofNat 10 := by intro hEq; subst hEq; revert h; decide
  have h4 : c ≠ Char.ofNat 13 := by intro hEq; subst hEq; revert h; decide
  have h5 : c.toNat ≠ 11 := by omega
  have h6 : c.toNat ≠ 12 := by omega
  unfold pyIsSpace
  simp [h1, h5, h6, show c ≠ '\t' from h2, show c ≠ '\n' from h3, show c ≠ '\r' from h4]

theorem dropWhile_no (p : Char → Bool) (m : List Char) (hm : ∀ c ∈ m, p c = false) :
    m.dropWhile p = m := by
  cases m with
  | nil => rfl
  | cons c cs =>
    rw [List.dropWhile_cons, hm c (by simp)]
    simp

theorem pyStrip_nospace (l : List Char) (h : ∀ c ∈ l, pyIsSpace c = false) :
    pyStrip l = l := by
  unfold pyStrip
  rw [dropWhile_no pyIsSpace l h,
    dropWhile_no pyIsSpace l.reverse (fun c hc => h c (List.mem_reverse.mp hc)),
    List.reverse_reverse]

theorem split_first (A B : List Char) (c : Char) (hA : ∀ x ∈ A, x ≠ c) :
    (A ++ c :: B).takeWhile (fun x => x ≠ c) = A ∧
      ((A ++ c :: B).dropWhile (fun x => x ≠ c)).drop 1 = B := by
  induction A with
  | nil =>
    constructor
    · rw [List.nil_append, List.takeWhile_cons]
      simp
    · rw [List.nil_append, List.dropWhile_cons]
      simp
  | cons a A ih =>
    have ha : a ≠ c := hA a (by simp)
    obtain ⟨ih1, ih2⟩ := ih (fun x hx => hA x (by simp [hx]))
    constructor
    · rw [List.cons_append, List.takeWhile_cons, decide_eq_true ha, if_pos rfl, ih1]
    · rw [List.cons_append, List.dropWhile_cons, decide_eq_true ha, if_pos rfl]
      exact ih2

theorem contains_iff (l : List Char) (c : Char) : l.contains c = true ↔ c ∈ l := by
  simp [List.contains]

theorem isdigitL_of (D : List Char) (hD : D ≠ [])
    (hall : ∀ c ∈ D, isDigitChar c = true) : isdigitL D = true := by
  unfold isdigitL
  rw [Bool.and_eq_true]
  constructor
  · simp [List.isEmpty_iff, hD]
  · rw [List.all_eq_true]
    exact hall

theorem isdigitL_zeroPad (w : ℕ) (A : List Char) (hA : A ≠ [])
    (h : ∀ c ∈ A, isDigitChar c = true) : isdigitL (zeroPad w A) = true := by
  refine isdigitL_of _ ?_ ?_
  · unfold zeroPad
    intro hnil
    rw [List.append_eq_nil] at hnil
    exact hA hnil.2
  · unfold zeroPad
    intro c hc
    rw [List.mem_append] at hc
    rcases hc with hc | hc
    · rw [List.eq_of_mem_replicate hc]
      decide
    · exact h c hc

theorem pyParseInt_digits (D : List Char) (hD : D ≠ [])
    (hall : ∀ c ∈ D, isDigitChar c = true) :
    pyParseInt (String.mk D) = .ok ((digitsToNat D : ℤ)) := by
  cases D with
  | nil => cases hD rfl
  | cons c rest =>
    have hc := hall c (by simp)
    unfold pyParseInt
    rw [show (String.mk (c :: rest)).data = c :: rest from rfl,
      pyStrip_nospace _ (fun x hx => digit_not_space x (hall x hx))]
    dsimp only
    rw [if_neg (digit_ne c hc).2.1, if_neg (digit_ne c hc).2.2,
      if_pos (isdigitL_of _ (by simp) hall)]

theorem pyParseInt_neg_digits (D : List Char) (hD : D ≠ [])
    (hall : ∀ c ∈ D, isDigitChar c = true) :
    pyParseInt (String.mk ('-' :: D)) = .ok (-(digitsToNat D : ℤ)) := by
  have hno : ∀ x ∈ '-' :: D, pyIsSpace x = false := by
    intro x hx
    rcases List.mem_cons.mp hx with h | h
    · subst h; decide
    · exact digit_not_space x (hall x h)
  unfold pyParseInt
  rw [show (String.mk ('-' :: D)).data = '-' :: D from rfl, pyStrip_nospace _ hno]
  dsimp only
  rw [if_pos rfl, if_pos (isdigitL_of D hD hall)]

theorem pyParseInt_intToStr (y : ℤ) : pyParseInt (intToStr y) = .ok y := by
  by_cases hy : y < 0
  · have hyd : intToStr y = String.mk ('-' :: natDigits (-y).toNat) := by
      unfold intToStr
      rw [if_pos hy]
      rfl
    rw [hyd, pyParseInt_neg_digits _ (natDigits_ne_nil _) (natDigits_all _)]
    rw [natDigits_val]
    congr 1
    omega
  · have hyd : intToStr y = String.mk (natDigits y.toNat) := by
      unfold intToStr
      rw [if_neg hy]
    rw [hyd, pyParseInt_digits _ (natDigits_ne_nil _) (natDigits_all _)]
    rw [natDigits_val]
    congr 1
    omega

theorem parse_formatted (y o : ℤ) (ho : 1 ≤ o) (w : ℕ) :
    KelvinStardate.parse (intToStr y ++ "." ++ String.mk (zeroPad w (natDigits o.toNat))) =
      .ok ⟨y, o⟩ := by
  have hPall : ∀ c ∈ zeroPad w (natDigits o.toNat), isDigitChar c = true := by
    unfold zeroPad
    intro c hc
    rw [List.mem_append] at hc
    rcases hc with hc | hc
    · rw [List.eq_of_mem_replicate hc]
      decide
    · exact natDigits_all _ c hc
  have hYnd : ∀ x ∈ (intToStr y).data, x ≠ '.' := by
    unfold intToStr
    split
    · intro x hx
      rw [show ("-" ++ String.mk (natDigits (-y).toNat)).data =
        '-' :: natDigits (-y).toNat from rfl] at hx
      rcases List.mem_cons.mp hx with h | h
      · subst h; decide
      · exact (digit_ne x (natDigits_all _ x h)).1
    · intro x hx
      exact (digit_ne x (natDigits_all _ x hx)).1
  have hdata : (intToStr y ++ "." ++ String.mk (zeroPad w (natDigits o.toNat))).data =
      (intToStr y).data ++ '.' :: zeroPad w (natDigits o.toNat) := by
    rw [String.data_append, String.data_append]
    simp
  obtain ⟨hsplit1, hsplit2⟩ :=
    split_first (intToStr y).data (zeroPad w (natDigits o.toNat)) '.' hYnd
  unfold KelvinStardate.parse
  rw [hdata]
  rw [if_neg (not_not_intro ((contains_iff _ _).mpr (by simp)))]
  simp only [hsplit1, hsplit2]
  have hpy : pyParseInt (String.mk (intToStr y).data) = .ok y := pyParseInt_intToStr y
  rw [hpy]
  show (if ¬ isdigitL (zeroPad w (natDigits o.toNat)) = true then
      Except.error (CoreErr.stardate ("Ordinal part must be numeric: " ++
        String.mk (zeroPad w (natDigits o.toNat))))
    else Except.ok (KelvinStardate.mk y (digitsToNat (zeroPad w (natDigits o.toNat)) : ℤ))) =
    Except.ok (KelvinStardate.mk y o)
  rw [if_neg (not_not_intro (isdigitL_zeroPad w _ (natDigits_ne_nil _) (natDigits_all _)))]
  have hval : digitsToNat (zeroPad w (natDigits o.toNat)) = o.toNat :=
    (digitsToNat_leading_zeros _ _).trans (natDigits_val _)
  rw [hval]
  congr 1
  simp only [KelvinStardate.mk.injEq, true_and]
  omega

/-- C8: for every integer year and ordinal_day at least 1, the stardate
formats as the year, a dot, and the ordinal zero-padded to width 2 below 100
and width 3 otherwise, and parsing that string returns exactly the same
year and ordinal_day. -/
theorem C8_format_parse (y o : ℤ) (ho : 1 ≤ o) :
    ksStr ⟨y, o⟩ = .ok (intToStr y ++ "." ++
        String.mk (zeroPad (if o < 100 then 2 else 3) (natDigits o.toNat))) ∧
      (ksStr ⟨y, o⟩).bind KelvinStardate.parse = .ok ⟨y, o⟩ := by
  have hfmt : ksStr ⟨y, o⟩ = .ok (intToStr y ++ "." ++
      String.mk (zeroPad (if o < 100 then 2 else 3) (natDigits o.toNat))) := by
    unfold ksStr format_ordinal
    dsimp only
    rw [if_neg (by omega : ¬ o < 1)]
    by_cases h100 : o < 100
    · rw [if_pos h100, if_pos h100]
    · rw [if_neg h100, if_neg h100]
  refine ⟨hfmt, ?_⟩
  rw [hfmt]
  show KelvinStardate.parse (intToStr y ++ "." ++
      String.mk (zeroPad (if o < 100 then 2 else 3) (natDigits o.toNat))) = .ok ⟨y, o⟩
  exact parse_formatted y o ho _

theorem C8_format_parse_witness :
    (1 : ℤ) ≤ 42 ∧
      (ksStr ⟨2258, 42⟩ = .ok (intToStr 2258 ++ "." ++
          String.mk (zeroPad (if (42 : ℤ) < 100 then 2 else 3) (natDigits (42 : ℤ).toNat))) ∧
        (ksStr ⟨2258, 42⟩).bind KelvinStardate.parse = .ok ⟨2258, 42⟩) :=
  ⟨by decide, C8_format_parse 2258 42 (by decide)⟩

/-!
Totality of the validators: every error carries a registered code.
-/

theorem coded_parse_year (s : String) : okOrCoded (parse_year s) := by
  intro e h
  simp only [parse_year] at h
  split at h
  · injection h with h2; subst h2; decide
  · split at h
    · injection h with h2; subst h2; decide
    · split at h
      · injection h with h2; subst h2; decide
      · split at h
        · injection h with h2; subst h2; decide
        · exact Except.noConfusion h

theorem coded_parse_year_yyyy (s : String) : okOrCoded (parse_year_yyyy s) := by
  intro e h
  simp only [parse_year_yyyy] at h
  split at h
  · injection h with h2; subst h2; decide
  · split at h
    · injection h with h2; subst h2; decide
    · split at h
      · injection h with h2; subst h2; decide
      · split at h
        · injection h with h2; subst h2; decide
        · split at h
          · injection h with h2; subst h2; decide
          · exact Except.noConfusion h

theorem coded_parse_month (s : String) : okOrCoded (parse_month s) := by
  intro e h
  simp only [parse_month] at h
  split at h
  · injection h with h2; subst h2; decide
  · split at h
    · exact Except.noConfusion h
    · split at h
      · split at h
        · exact Except.noConfusion h
        · injection h with h2; subst h2; decide
      · injection h with h2; subst h2; decide

theorem coded_parse_day (s : String) : okOrCoded (parse_day s) := by
  intro e h
  simp only [parse_day] at h
  split at h
  · injection h with h2; subst h2; decide
  · split at h
    · injection h with h2; subst h2; decide
    · split at h
      · injection h with h2; subst h2; decide
      · exact Except.noConfusion h

theorem coded_parse_earth_date (s : String) (fn : Option (ℤ → Bool)) :
    okOrCoded (parse_earth_date s fn) := by
  intro e h
  simp only [parse_earth_date] at h
  split at h
  · injection h with h2; subst h2; decide
  · split at h
    · next y_raw m_raw d_raw =>
      split at h
      · next e1 heq =>
        injection h with h2
        subst h2
        exact coded_parse_year _ e1 heq
      · split at h
        · next e1 heq =>
          injection h with h2
          subst h2
          exact coded_parse_month _ e1 heq
        · split at h
          · next e1 heq =>
            injection h with h2
            subst h2
            exact coded_parse_day _ e1 heq
          · split at h
            · split at h
              · injection h with h2; subst h2; decide
              · exact Except.noConfusion h
            · exact Except.noConfusion h
    · injection h with h2; subst h2; decide

theorem coded_validate_stardate_string (s : String) :
    okOrCoded (validate_stardate_string s) := by
  intro e h
  simp only [validate_stardate_string] at h
  split at h
  · injection h with h2; subst h2; decide
  · split at h
    · injection h with h2; subst h2; decide
    · split at h
      · injection h with h2; subst h2; decide
      · split at h
        · injection h with h2; subst h2; decide
        · split at h
          · injection h with h2; subst h2; decide
          · split at h
            · injection h with h2; subst h2; decide
            · split at h
              · injection h with h2; subst h2; decide
              · split at h
                · injection h with h2; subst h2; decide
                · split at h
                  · injection h with h2; subst h2; decide
                  · exact Except.noConfusion h

theorem coded_validate_kelvin_stardate_string (s : String) :
    okOrCoded (validate_kelvin_stardate_string s) := by
  intro e h
  simp only [validate_kelvin_stardate_string] at h
  split at h
  · next e1 heq =>
    injection h with h2
    subst h2
    exact coded_validate_stardate_string _ e1 heq
  · split at h
    · injection h with h2; subst h2; decide
    · split at h
      · injection h with h2; subst h2; decide
      · exact Except.noConfusion h

theorem detect_total (s : String) :
    detect_stardate_type s = "kelvin" ∨ detect_stardate_type s = "astronomical" := by
  simp only [detect_stardate_type]
  split
  · exact Or.inl rfl
  · split
    · exact Or.inl rfl
    · split
      · exact Or.inr rfl
      · exact Or.inl rfl

/-- Over the ASCII-digit model `isdigitL`, every validator of §4.4 returns a
value or a registry-coded error, and detect_stardate_type returns one of its
two classes.  This is exactly the contract the spec states — but it is not
true of the program on the full string domain: the real `str.isdigit` also
accepts non-decimal Unicode digits, on which the unguarded `int()` calls
raise a bare `ValueError` instead (see `C7_int_digit_mismatch`). -/
theorem validators_coded_ascii (s : String) :
    okOrCoded (parse_year s) ∧ okOrCoded (parse_year_yyyy s) ∧
      okOrCoded (parse_month s) ∧ okOrCoded (parse_day s) ∧
      (∀ fn, okOrCoded (parse_earth_date s fn)) ∧
      okOrCoded (validate_stardate_string s) ∧
      okOrCoded (validate_kelvin_stardate_string s) ∧
      (detect_stardate_type s = "kelvin" ∨ detect_stardate_type s = "astronomical") :=
  ⟨coded_parse_year s, coded_parse_year_yyyy s, coded_parse_month s, coded_parse_day s,
    fun fn => coded_parse_earth_date s fn, coded_validate_stardate_string s,
    coded_validate_kelvin_stardate_string s, detect_total s⟩

/-- C7 states the intended contract, but the code breaks it: the superscript
two (U+00B2) satisfies the `str.isdigit()` guard of parse_day — modelled
faithfully by `pyIsdigit` — yet it is not a decimal digit, so the unguarded
`int(raw)` that follows raises a bare `ValueError`, not a coded
`StardateCLIError`.  The same guard/`int()` mismatch sits in parse_year,
parse_year_yyyy, parse_month and validate_stardate_string. -/
theorem C7_int_digit_mismatch :
    pyIsDigitChar '\u00B2' = true ∧ isdigitL ['\u00B2'] = false ∧
      parse_day_py "\u00B2" = .error PyErr.valueError :=
  ⟨by decide, by decide, rfl⟩

theorem mk_data (l : List Char) : (String.mk l).data = l := rfl

theorem contains_of_count_one (l : List Char) (c : Char) (h : l.count c = 1) :
    l.contains c = true := by
  rw [contains_iff]
  by_contra hmem
  rw [← List.count_eq_zero] at hmem
  omega

theorem stardate_ok_of (s : String)
    (hdash : (pyStrip s.data).contains '-' = false)
    (hcount : (pyStrip s.data).count '.' = 1)
    (hlen4 : ((pyStrip s.data).takeWhile (fun c => c ≠ '.')).length = 4)
    (hldig : isdigitL ((pyStrip s.data).takeWhile (fun c => c ≠ '.')) = true)
    (hy1 : 1 ≤ digitsToNat ((pyStrip s.data).takeWhile (fun c => c ≠ '.')))
    (hy2 : digitsToNat ((pyStrip s.data).takeWhile (fun c => c ≠ '.')) ≤ 9999)
    (hrnil : (((pyStrip s.data).dropWhile (fun c => c ≠ '.')).drop 1) ≠ [])
    (hrdig : isdigitL (((pyStrip s.data).dropWhile (fun c => c ≠ '.')).drop 1) = true)
    (hrlen : ((((pyStrip s.data).dropWhile (fun c => c ≠ '.')).drop 1)).length ≤ 8) :
    validate_stardate_string s = .ok (String.mk (pyStrip s.data)) := by
  have hlnil : (pyStrip s.data).takeWhile (fun c => c ≠ '.') ≠ [] := by
    intro hz
    rw [hz] at hlen4
    simp at hlen4
  have hne : ¬ (pyStrip s.data == []) = true := by
    intro hz
    have := eq_of_beq hz
    rw [this] at hlen4
    simp at hlen4
  simp only [validate_stardate_string, emptyInput]
  rw [if_neg hne, if_neg (by rw [hdash]; simp),
    if_neg (not_not_intro (contains_of_count_one _ _ hcount)),
    if_neg (not_not_intro hcount),
    if_neg (by rw [not_or]; exact ⟨hlnil, hrnil⟩),
    if_neg (by rw [not_or]; exact ⟨not_not_intro hldig, not_not_intro hrdig⟩),
    if_neg (not_not_intro hlen4),
    if_neg (not_not_intro ⟨hy1, hy2⟩),
    if_neg (by omega)]

theorem stardate_spec_of_ok (s : String) (t : String)
    (h : validate_stardate_string s = .ok t) :
    t = String.mk (pyStrip s.data) ∧
      (pyStrip s.data).contains '-' = false ∧
      (pyStrip s.data).count '.' = 1 ∧
      ((pyStrip s.data).takeWhile (fun c => c ≠ '.')).length = 4 ∧
      isdigitL ((pyStrip s.data).takeWhile (fun c => c ≠ '.')) = true ∧
      1 ≤ digitsToNat ((pyStrip s.data).takeWhile (fun c => c ≠ '.')) ∧
      digitsToNat ((pyStrip s.data).takeWhile (fun c => c ≠ '.')) ≤ 9999 ∧
      isdigitL (((pyStrip s.data).dropWhile (fun c => c ≠ '.')).drop 1) = true := by
  simp only [validate_stardate_string, emptyInput] at h
  split at h
  · exact Except.noConfusion h
  · split at h
    · exact Except.noConfusion h
    · split at h
      · exact Except.noConfusion h
      · split at h
        · exact Except.noConfusion h
        · split at h
          · exact Except.noConfusion h
          · split at h
            · exact Except.noConfusion h
            · split at h
              · exact Except.noConfusion h
              · split at h
                · exact Except.noConfusion h
                · split at h
                  · exact Except.noConfusion h
                  · next h2 h3 h4 h5 h6 h7 h8 h9 h10 =>
                    injection h with h11
                    rw [not_or] at h7
                    rw [not_not] at h8 h9
                    refine ⟨h11.symm, by rw [← Bool.not_eq_true]; exact h3,
                      by omega, h8, not_not.mp h7.1, h9.1, h9.2, not_not.mp h7.2⟩

theorem kelvin_ok_of_spec (s : String) (hspec : kelvinStringSpec s) :
    validate_kelvin_stardate_string s = .ok (String.mk (pyStrip s.data)) := by
  simp only [kelvinStringSpec] at hspec
  obtain ⟨hdash, hcount, hlen4, hldig, hy1, hy2, hlen3, hrdig, ho1, ho366⟩ := hspec
  have hst := stardate_ok_of s hdash hcount hlen4 hldig hy1 hy2
    (by intro hz; rw [hz] at hlen3; simp at hlen3) hrdig (by omega)
  unfold validate_kelvin_stardate_string
  rw [hst]
  simp only [mk_data]
  rw [if_neg (by omega), if_neg (not_not_intro ⟨ho1, ho366⟩)]

theorem kelvin_spec_of_ok (s t : String)
    (h : validate_kelvin_stardate_string s = .ok t) : kelvinStringSpec s := by
  unfold validate_kelvin_stardate_string at h
  split at h
  · exact Except.noConfusion h
  · next s2 heq =>
    obtain ⟨hs2, hdash, hcount, hlen4, hldig, hy1, hy2, hrdig⟩ := stardate_spec_of_ok s s2 heq
    subst hs2
    simp only [mk_data] at h
    split at h
    · exact Except.noConfusion h
    · split at h
      · exact Except.noConfusion h
      · next hlen3 hord =>
        rw [not_not] at hord
        simp only [kelvinStringSpec]
        exact ⟨hdash, hcount, hlen4, hldig, hy1, hy2, by omega, hrdig, hord.1, hord.2⟩

/-- C6: validate_kelvin_stardate_string accepts, returning the
whitespace-trimmed string, exactly when the trimmed input has no dash,
exactly one dot, a left side of exactly 4 digits whose year value is in
1..9999, and a right side of exactly 3 digits whose ordinal value is in
1..366; in particular 2258.42 and 2258.999 are rejected while 2258.042 is
accepted. -/
theorem C6_kelvin_validator :
    (∀ s : String,
        ((∃ t, validate_kelvin_stardate_string s = .ok t) ↔ kelvinStringSpec s) ∧
          (kelvinStringSpec s →
            validate_kelvin_stardate_string s = .ok (String.mk (pyStrip s.data)))) ∧
      validate_kelvin_stardate_string "2258.42" =
        .error ⟨"E011", "Invalid Kelvin stardate (expected 3-digit ordinal, e.g., 2258.042)."⟩ ∧
      validate_kelvin_stardate_string "2258.999" =
        .error ⟨"E011", "Invalid Kelvin stardate (ordinal day must be 001-366)."⟩ ∧
      validate_kelvin_stardate_string "2258.042" = .ok "2258.042" := by
  refine ⟨fun s => ⟨⟨fun ht => ?_, fun hspec => ⟨_, kelvin_ok_of_spec s hspec⟩⟩,
    kelvin_ok_of_spec s⟩, rfl, rfl, rfl⟩
  obtain ⟨t, ht⟩ := ht
  exact kelvin_spec_of_ok s t ht

end Kelvin
